import Mathlib

set_option autoImplicit false

/-!
Shallow embedding of the IoT Hub lower-layer client
(`src/firmware/iothub_client_ll.c`) and verification of its
message-lifecycle properties.

Modelling conventions:
* Pointers that are only compared against `NULL` become `Option _`
  (`none` = `NULL`); opaque handles, callback function pointers and
  user-context pointers become `Nat` identifiers wrapped in `Option`.
* `uint64_t` values live in `Nat` with an explicit `% 2 ^ 64` at the
  one arithmetic operation that can overflow; `time_t` becomes `Int`
  with the sentinel `INDEFINITE_TIME = -1` as in the source.
* Calls out of the module (completion callbacks, `IoTHubMessage_Destroy`,
  the transport function table, the application message callback) are
  recorded as an `Event` trace in the order the C code performs them.
* External outcomes the C code branches on (tickcounter availability,
  allocation and clone success, the transport return codes, the value
  the application callback returns) are explicit parameters.
-/

inductive IOTHUB_CLIENT_RESULT
  | OK
  | INVALID_ARG
  | ERROR
  | INDEFINITE_TIME
  deriving DecidableEq, Repr

inductive IOTHUB_CLIENT_CONFIRMATION_RESULT
  | OK
  | BECAUSE_DESTROY
  | MESSAGE_TIMEOUT
  | ERROR
  deriving DecidableEq, Repr

inductive IOTHUB_BATCHSTATE_RESULT
  | SUCCESS
  | FAILED
  deriving DecidableEq, Repr

inductive IOTHUBMESSAGE_DISPOSITION_RESULT
  | ACCEPTED
  | REJECTED
  | ABANDONED
  deriving DecidableEq, Repr

/-- One record of the `waitingToSend` DLIST (`IOTHUB_MESSAGE_LIST` in
`iothub_client_private.h`): the cloned message handle, the confirmation
callback (`none` = `NULL`), the user context, and the absolute expiry
tick (`0` = never times out). -/
structure IOTHUB_MESSAGE_LIST where
  messageHandle : Nat
  callback : Option Nat
  context : Option Nat
  ms_timesOutAfter : Nat
  deriving DecidableEq, Repr

/-- `time_t INDEFINITE_TIME = (time_t)(-1)` from the source. -/
def INDEFINITE_TIME : Int := -1

/-- The observable state of `IOTHUB_CLIENT_LL_HANDLE_DATA`.  The
transport function table and the opaque transport/device handles are
external and appear only through the recorded `Event` trace. -/
structure IOTHUB_CLIENT_LL_HANDLE_DATA where
  waitingToSend : List IOTHUB_MESSAGE_LIST
  isSharedTransport : Bool
  messageCallback : Option Nat
  messageUserContextCallback : Option Nat
  lastMessageReceiveTime : Int
  currentMessageTimeout : Nat
  deriving DecidableEq, Repr

/-- Externally visible actions the client performs, in program order. -/
inductive Event
  | callbackCalled (cb : Nat) (status : IOTHUB_CLIENT_CONFIRMATION_RESULT)
      (context : Option Nat)
  | messageDestroyed (messageHandle : Nat)
  | transportUnregister
  | transportDestroy
  | transportDoWork (waitingToSend : List IOTHUB_MESSAGE_LIST)
  | appMessageCallback (cb : Nat) (message : Nat) (context : Option Nat)
  deriving DecidableEq, Repr

def isCallbackEvent : Event → Bool
  | Event.callbackCalled _ _ _ => true
  | _ => false

def isMessageDestroyedEvent : Event → Bool
  | Event.messageDestroyed _ => true
  | _ => false

def isTransportDoWorkEvent : Event → Bool
  | Event.transportDoWork _ => true
  | _ => false

/-- `if (x->callback != NULL) x->callback(status, x->context);` -/
def invokeCallback (e : IOTHUB_MESSAGE_LIST)
    (status : IOTHUB_CLIENT_CONFIRMATION_RESULT) : List Event :=
  match e.callback with
  | none => []
  | some cb => [Event.callbackCalled cb status e.context]

/-- The eviction condition of `DoTimeouts`:
`(fullEntry->ms_timesOutAfter != 0) && (fullEntry->ms_timesOutAfter < nowTick)`. -/
def timesOutBefore (nowTick : Nat) (e : IOTHUB_MESSAGE_LIST) : Bool :=
  decide (e.ms_timesOutAfter ≠ 0) && decide (e.ms_timesOutAfter < nowTick)

/-- The traversal loop of `DoTimeouts`: walk the list once; an expired
entry is unlinked, its callback fired with `MESSAGE_TIMEOUT`, its
message destroyed, the entry freed, and the walk resumes at the saved
successor (`theNext`); an unexpired entry is kept and the walk moves on. -/
def DoTimeouts_loop (nowTick : Nat) :
    List IOTHUB_MESSAGE_LIST → List IOTHUB_MESSAGE_LIST × List Event
  | [] => ([], [])
  | fullEntry :: theNext =>
    if timesOutBefore nowTick fullEntry then
      let r := DoTimeouts_loop nowTick theNext
      (r.1,
        invokeCallback fullEntry IOTHUB_CLIENT_CONFIRMATION_RESULT.MESSAGE_TIMEOUT ++
          (Event.messageDestroyed fullEntry.messageHandle :: r.2))
    else
      let r := DoTimeouts_loop nowTick theNext
      (fullEntry :: r.1, r.2)

/-- `static void DoTimeouts(...)`: read the tickcounter once; on failure
the scan is skipped (queue untouched, nothing emitted), otherwise run
the traversal loop.  Returns the surviving queue and the emitted trace. -/
def DoTimeouts (nowTick : Option Nat)
    (waitingToSend : List IOTHUB_MESSAGE_LIST) :
    List IOTHUB_MESSAGE_LIST × List Event :=
  match nowTick with
  | none => (waitingToSend, [])
  | some now => DoTimeouts_loop now waitingToSend

/-- The per-entry trace of every removal path in the source: the
callback (when non-`NULL`) fires once with the final status, then the
cloned message is destroyed. -/
def entryFinalEvents (status : IOTHUB_CLIENT_CONFIRMATION_RESULT)
    (e : IOTHUB_MESSAGE_LIST) : List Event :=
  invokeCallback e status ++ [Event.messageDestroyed e.messageHandle]

theorem DoTimeouts_loop_fst (now : Nat) (q : List IOTHUB_MESSAGE_LIST) :
    (DoTimeouts_loop now q).1 = q.filter (fun e => !timesOutBefore now e) := by
  induction q with
  | nil => rfl
  | cons e rest ih =>
    by_cases h : timesOutBefore now e <;>
      simp [DoTimeouts_loop, h, ih]

theorem DoTimeouts_loop_snd (now : Nat) (q : List IOTHUB_MESSAGE_LIST) :
    (DoTimeouts_loop now q).2 =
      ((q.filter (timesOutBefore now)).map
        (entryFinalEvents IOTHUB_CLIENT_CONFIRMATION_RESULT.MESSAGE_TIMEOUT)).flatten := by
  induction q with
  | nil => rfl
  | cons e rest ih =>
    by_cases h : timesOutBefore now e <;>
      simp [DoTimeouts_loop, h, ih, entryFinalEvents]

/-- Claim C1: with a successfully read timestamp `now`, the timeout scan
keeps exactly the entries whose expiry is `0` or not strictly below
`now` (`timesOutBefore` is false), in their original order; and for each
removed entry, in head-to-tail order, it fires its callback (when
non-null) exactly once with the `MESSAGE_TIMEOUT` status and then
destroys its message copy. -/
theorem claim_C1_timeout_scan (now : Nat) (q : List IOTHUB_MESSAGE_LIST) :
    (DoTimeouts (some now) q).1 =
      q.filter (fun e => !timesOutBefore now e) ∧
    (DoTimeouts (some now) q).2 =
      ((q.filter (timesOutBefore now)).map
        (entryFinalEvents IOTHUB_CLIENT_CONFIRMATION_RESULT.MESSAGE_TIMEOUT)).flatten :=
  ⟨DoTimeouts_loop_fst now q, DoTimeouts_loop_snd now q⟩

/-- The drain loop of `IoTHubClient_LL_Destroy`: repeatedly
`DList_RemoveHeadList` the queue; for each removed record fire its
callback (when non-`NULL`) with `BECAUSE_DESTROY`, destroy the cloned
message, free the record. -/
def Destroy_drain : List IOTHUB_MESSAGE_LIST → List Event
  | [] => []
  | temp :: rest =>
    invokeCallback temp IOTHUB_CLIENT_CONFIRMATION_RESULT.BECAUSE_DESTROY ++
      (Event.messageDestroyed temp.messageHandle :: Destroy_drain rest)

/-- `void IoTHubClient_LL_Destroy(...)`: nothing on `NULL`; otherwise
transport `_Unregister`, then transport `_Destroy` when the transport is
not shared, then drain `waitingToSend` head first. -/
def IoTHubClient_LL_Destroy
    (iotHubClientHandle : Option IOTHUB_CLIENT_LL_HANDLE_DATA) : List Event :=
  match iotHubClientHandle with
  | none => []
  | some handleData =>
    Event.transportUnregister ::
      ((if handleData.isSharedTransport = false then [Event.transportDestroy]
        else []) ++
        Destroy_drain handleData.waitingToSend)

theorem Destroy_drain_eq (q : List IOTHUB_MESSAGE_LIST) :
    Destroy_drain q =
      (q.map (entryFinalEvents
        IOTHUB_CLIENT_CONFIRMATION_RESULT.BECAUSE_DESTROY)).flatten := by
  induction q with
  | nil => rfl
  | cons e rest ih => simp [Destroy_drain, entryFinalEvents, ih]

theorem entryFinalEvents_filter_cb
    (status : IOTHUB_CLIENT_CONFIRMATION_RESULT)
    (q : List IOTHUB_MESSAGE_LIST) :
    ((q.map (entryFinalEvents status)).flatten).filter isCallbackEvent =
      q.filterMap (fun e => e.callback.map
        (fun cb => Event.callbackCalled cb status e.context)) := by
  induction q with
  | nil => rfl
  | cons e rest ih =>
    cases h : e.callback <;>
      simp [entryFinalEvents, invokeCallback, h, isCallbackEvent, ih]

theorem entryFinalEvents_filter_destroyed
    (status : IOTHUB_CLIENT_CONFIRMATION_RESULT)
    (q : List IOTHUB_MESSAGE_LIST) :
    ((q.map (entryFinalEvents status)).flatten).filter isMessageDestroyedEvent =
      q.map (fun e => Event.messageDestroyed e.messageHandle) := by
  induction q with
  | nil => rfl
  | cons e rest ih =>
    cases h : e.callback <;>
      simp [entryFinalEvents, invokeCallback, h, isMessageDestroyedEvent, ih]

theorem Destroy_drain_filter_cb (q : List IOTHUB_MESSAGE_LIST) :
    (Destroy_drain q).filter isCallbackEvent =
      q.filterMap (fun e => e.callback.map
        (fun cb => Event.callbackCalled cb
          IOTHUB_CLIENT_CONFIRMATION_RESULT.BECAUSE_DESTROY e.context)) := by
  rw [Destroy_drain_eq]
  exact entryFinalEvents_filter_cb _ q

theorem Destroy_drain_filter_destroyed (q : List IOTHUB_MESSAGE_LIST) :
    (Destroy_drain q).filter isMessageDestroyedEvent =
      q.map (fun e => Event.messageDestroyed e.messageHandle) := by
  rw [Destroy_drain_eq]
  exact entryFinalEvents_filter_destroyed _ q

/-- Claim C2: `Destroy` on `NULL` does nothing; on a live instance its
trace begins with the transport `_Unregister` call, contains the
transport `_Destroy` call exactly when the transport is not shared, and
then drains the queue in FIFO order: each entry's non-null callback
fires exactly once with `BECAUSE_DESTROY` (in queue order, with its
stored context) and every one of the queued message copies is destroyed,
so no entry is dropped. -/
theorem claim_C2_destroy_drains (d : IOTHUB_CLIENT_LL_HANDLE_DATA) :
    IoTHubClient_LL_Destroy none = [] ∧
    (IoTHubClient_LL_Destroy (some d)).head? = some Event.transportUnregister ∧
    (IoTHubClient_LL_Destroy (some d)).countP
        (fun ev => decide (ev = Event.transportDestroy)) =
      (if d.isSharedTransport then 0 else 1) ∧
    (IoTHubClient_LL_Destroy (some d)).filter isCallbackEvent =
      d.waitingToSend.filterMap (fun e => e.callback.map
        (fun cb => Event.callbackCalled cb
          IOTHUB_CLIENT_CONFIRMATION_RESULT.BECAUSE_DESTROY e.context)) ∧
    (IoTHubClient_LL_Destroy (some d)).filter isMessageDestroyedEvent =
      d.waitingToSend.map (fun e => Event.messageDestroyed e.messageHandle) := by
  have hdrain := Destroy_drain_eq d.waitingToSend
  have hnoDestroy : ∀ q : List IOTHUB_MESSAGE_LIST,
      ((q.map (entryFinalEvents
        IOTHUB_CLIENT_CONFIRMATION_RESULT.BECAUSE_DESTROY)).flatten).countP
        (fun ev => decide (ev = Event.transportDestroy)) = 0 := by
    intro q
    induction q with
    | nil => rfl
    | cons e rest ih =>
      cases h : e.callback <;>
        simp [entryFinalEvents, invokeCallback, h, List.countP_append, ih,
          List.countP_cons]
  refine ⟨rfl, ?_, ?_, ?_, ?_⟩
  · cases hs : d.isSharedTransport <;> simp [IoTHubClient_LL_Destroy, hs]
  · cases hs : d.isSharedTransport <;>
      simp [IoTHubClient_LL_Destroy, hs, List.countP_cons, List.countP_append,
        hdrain, hnoDestroy]
  · cases hs : d.isSharedTransport <;>
      simp [IoTHubClient_LL_Destroy, hs, isCallbackEvent,
        Destroy_drain_filter_cb]
  · cases hs : d.isSharedTransport <;>
      simp [IoTHubClient_LL_Destroy, hs, isMessageDestroyedEvent,
        Destroy_drain_filter_destroyed]

/-- The completion loop of `IoTHubClient_LL_SendComplete`: repeatedly
`DList_RemoveHeadList` the completed batch; for each removed record fire
its callback (when non-`NULL`) with the uniform per-batch status, destroy
the cloned message, free the record. -/
def SendComplete_loop (resultToBeCalled : IOTHUB_CLIENT_CONFIRMATION_RESULT) :
    List IOTHUB_MESSAGE_LIST → List Event
  | [] => []
  | messageList :: rest =>
    invokeCallback messageList resultToBeCalled ++
      (Event.messageDestroyed messageList.messageHandle ::
        SendComplete_loop resultToBeCalled rest)

/-- `void IoTHubClient_LL_SendComplete(...)`: returns (only logging) when
the handle or the completed batch is `NULL`; otherwise maps the batch
result to `OK` for `IOTHUB_BATCHSTATE_SUCCESS` and `ERROR` otherwise and
runs the completion loop over the batch. -/
def IoTHubClient_LL_SendComplete
    (handle : Option IOTHUB_CLIENT_LL_HANDLE_DATA)
    (completed : Option (List IOTHUB_MESSAGE_LIST))
    (result : IOTHUB_BATCHSTATE_RESULT) : List Event :=
  match handle, completed with
  | some _, some batch =>
    SendComplete_loop
      (if result = IOTHUB_BATCHSTATE_RESULT.SUCCESS then
        IOTHUB_CLIENT_CONFIRMATION_RESULT.OK
      else IOTHUB_CLIENT_CONFIRMATION_RESULT.ERROR)
      batch
  | _, _ => []

theorem SendComplete_loop_eq (status : IOTHUB_CLIENT_CONFIRMATION_RESULT)
    (q : List IOTHUB_MESSAGE_LIST) :
    SendComplete_loop status q = (q.map (entryFinalEvents status)).flatten := by
  induction q with
  | nil => rfl
  | cons e rest ih => simp [SendComplete_loop, entryFinalEvents, ih]

/-- Claim C3: with a non-null handle and batch, `SendComplete` fires each
batch entry's non-null callback exactly once, in batch (head-to-tail)
order, with the entry's stored context and the uniform status determined
by the batch result (`SUCCESS` gives the `OK` confirmation, `FAILED`
gives `ERROR`), and destroys each entry's message copy; a null handle or
null batch makes the call a no-op. -/
theorem claim_C3_send_complete (d : IOTHUB_CLIENT_LL_HANDLE_DATA)
    (batch : List IOTHUB_MESSAGE_LIST) (result : IOTHUB_BATCHSTATE_RESULT) :
    (∀ c r, IoTHubClient_LL_SendComplete none c r = []) ∧
    (∀ h r, IoTHubClient_LL_SendComplete h none r = []) ∧
    (IoTHubClient_LL_SendComplete (some d) (some batch) result).filter
        isCallbackEvent =
      batch.filterMap (fun e => e.callback.map
        (fun cb => Event.callbackCalled cb
          (if result = IOTHUB_BATCHSTATE_RESULT.SUCCESS then
            IOTHUB_CLIENT_CONFIRMATION_RESULT.OK
          else IOTHUB_CLIENT_CONFIRMATION_RESULT.ERROR) e.context)) ∧
    (IoTHubClient_LL_SendComplete (some d) (some batch) result).filter
        isMessageDestroyedEvent =
      batch.map (fun e => Event.messageDestroyed e.messageHandle) := by
  refine ⟨fun c r => rfl, fun h r => ?_, ?_, ?_⟩
  · cases h <;> rfl
  · show (SendComplete_loop _ batch).filter isCallbackEvent = _
    rw [SendComplete_loop_eq]
    exact entryFinalEvents_filter_cb _ batch
  · show (SendComplete_loop _ batch).filter isMessageDestroyedEvent = _
    rw [SendComplete_loop_eq]
    exact entryFinalEvents_filter_destroyed _ batch

/-- `static int attach_ms_timesOutAfter(...)`: with a zero
`currentMessageTimeout` the entry gets expiry `0` (never times out) and
the call succeeds without touching the clock; otherwise the tickcounter
is read (`none` = `tickcounter_get_current_ms` failed, a hard error) and
the expiry is the reading plus the timeout, as `uint64_t` arithmetic.
Returns `some` expiry on success, `none` on failure. -/
def attach_ms_timesOutAfter (currentMessageTimeout : Nat)
    (nowTick : Option Nat) : Option Nat :=
  if currentMessageTimeout = 0 then
    some 0
  else
    match nowTick with
    | none => none
    | some now => some ((now + currentMessageTimeout) % 2 ^ 64)

/-- `IOTHUB_CLIENT_RESULT IoTHubClient_LL_SendEventAsync(...)`:
`INVALID_ARG` when the handle or the message is `NULL`, or the callback
is `NULL` while the context is not; `ERROR` when the entry allocation
fails, when `attach_ms_timesOutAfter` fails, or when
`IoTHubMessage_Clone` fails (entry discarded, queue unchanged in each
case); otherwise the cloned entry is appended at the tail of
`waitingToSend` and the call returns `OK`.  `mallocOK` and `cloneOK`
stand for the outcomes of `malloc` and `IoTHubMessage_Clone`. -/
def IoTHubClient_LL_SendEventAsync
    (iotHubClientHandle : Option IOTHUB_CLIENT_LL_HANDLE_DATA)
    (eventMessageHandle : Option Nat)
    (eventConfirmationCallback : Option Nat)
    (userContextCallback : Option Nat)
    (nowTick : Option Nat) (mallocOK : Bool) (cloneOK : Bool) :
    IOTHUB_CLIENT_RESULT × Option IOTHUB_CLIENT_LL_HANDLE_DATA :=
  match iotHubClientHandle, eventMessageHandle with
  | some handleData, some msg =>
    if eventConfirmationCallback = none ∧ userContextCallback ≠ none then
      (IOTHUB_CLIENT_RESULT.INVALID_ARG, some handleData)
    else if mallocOK = false then
      (IOTHUB_CLIENT_RESULT.ERROR, some handleData)
    else
      match attach_ms_timesOutAfter handleData.currentMessageTimeout nowTick with
      | none => (IOTHUB_CLIENT_RESULT.ERROR, some handleData)
      | some expiry =>
        if cloneOK = false then
          (IOTHUB_CLIENT_RESULT.ERROR, some handleData)
        else
          (IOTHUB_CLIENT_RESULT.OK,
            some { handleData with
              waitingToSend := handleData.waitingToSend ++
                [{ messageHandle := msg,
                   callback := eventConfirmationCallback,
                   context := userContextCallback,
                   ms_timesOutAfter := expiry }] })
  | _, _ => (IOTHUB_CLIENT_RESULT.INVALID_ARG, iotHubClientHandle)

/-- Claim C4: a successful send with a zero default timeout stores
expiry `0` (never expires), whatever the clock does; with a non-zero
default timeout and a good clock read it stores exactly
`now + currentMessageTimeout` (no wrap under the stated bound); and with
a non-zero default timeout and a failed clock read the call returns
`ERROR` and leaves the instance, in particular the queue, unchanged. -/
theorem claim_C4_expiry_stamping (d : IOTHUB_CLIENT_LL_HANDLE_DATA)
    (msg : Nat) (cb ctx : Option Nat) (nowTick : Option Nat) (now : Nat)
    (hvalid : ¬(cb = none ∧ ctx ≠ none)) :
    (d.currentMessageTimeout = 0 →
      IoTHubClient_LL_SendEventAsync (some d) (some msg) cb ctx nowTick
          true true =
        (IOTHUB_CLIENT_RESULT.OK,
          some { d with waitingToSend := d.waitingToSend ++
            [{ messageHandle := msg, callback := cb, context := ctx,
               ms_timesOutAfter := 0 }] })) ∧
    (d.currentMessageTimeout ≠ 0 →
      now + d.currentMessageTimeout < 2 ^ 64 →
      IoTHubClient_LL_SendEventAsync (some d) (some msg) cb ctx (some now)
          true true =
        (IOTHUB_CLIENT_RESULT.OK,
          some { d with waitingToSend := d.waitingToSend ++
            [{ messageHandle := msg, callback := cb, context := ctx,
               ms_timesOutAfter := now + d.currentMessageTimeout }] })) ∧
    (d.currentMessageTimeout ≠ 0 →
      IoTHubClient_LL_SendEventAsync (some d) (some msg) cb ctx none
          true true =
        (IOTHUB_CLIENT_RESULT.ERROR, some d)) := by
  refine ⟨?_, ?_, ?_⟩
  · intro h0
    simp [IoTHubClient_LL_SendEventAsync, hvalid, attach_ms_timesOutAfter, h0]
  · intro h0 hlt
    simp [IoTHubClient_LL_SendEventAsync, hvalid, attach_ms_timesOutAfter, h0,
      Nat.mod_eq_of_lt hlt]
    exact hlt
  · intro h0
    simp [IoTHubClient_LL_SendEventAsync, hvalid, attach_ms_timesOutAfter, h0]

/-- A concrete fresh instance used to instantiate universally quantified
theorems at evaluable inputs. -/
def sampleHandleData (timeout : Nat) : IOTHUB_CLIENT_LL_HANDLE_DATA :=
  { waitingToSend := [], isSharedTransport := false, messageCallback := none,
    messageUserContextCallback := none,
    lastMessageReceiveTime := INDEFINITE_TIME,
    currentMessageTimeout := timeout }

theorem claim_C4_expiry_stamping_witness :
    (¬((some 7 : Option Nat) = none ∧ (some 9 : Option Nat) ≠ none)) ∧
    ((sampleHandleData 500).currentMessageTimeout ≠ 0) ∧
    (1000 + (sampleHandleData 500).currentMessageTimeout < 2 ^ 64) ∧
    IoTHubClient_LL_SendEventAsync (some (sampleHandleData 500))
        (some 3) (some 7) (some 9) (some 1000) true true =
      (IOTHUB_CLIENT_RESULT.OK,
        some { sampleHandleData 500 with
                waitingToSend :=
                  [{ messageHandle := 3, callback := some 7,
                     context := some 9, ms_timesOutAfter := 1500 }] }) := by
  refine ⟨by decide, by decide, by decide, ?_⟩
  exact (claim_C4_expiry_stamping (sampleHandleData 500)
    3 (some 7) (some 9) (some 1000) 1000 (by decide)).2.1
    (by decide) (by decide)

/-- Claim C6: a send with a null handle, a null message, or a null
callback alongside a non-null context returns `INVALID_ARG` and leaves
the instance state (in particular the queue) exactly as it was. -/
theorem claim_C6_send_invalid_arg
    (h : Option IOTHUB_CLIENT_LL_HANDLE_DATA) (msg cb ctx : Option Nat)
    (nowTick : Option Nat) (mallocOK cloneOK : Bool)
    (hbad : h = none ∨ msg = none ∨ (cb = none ∧ ctx ≠ none)) :
    IoTHubClient_LL_SendEventAsync h msg cb ctx nowTick mallocOK cloneOK =
      (IOTHUB_CLIENT_RESULT.INVALID_ARG, h) := by
  match h, msg with
  | none, _ => cases msg <;> rfl
  | some d, none => rfl
  | some d, some m =>
    have hc : cb = none ∧ ctx ≠ none := by
      rcases hbad with h1 | h2 | h3
      · exact absurd h1 (by simp)
      · exact absurd h2 (by simp)
      · exact h3
    simp [IoTHubClient_LL_SendEventAsync, hc]

theorem claim_C6_send_invalid_arg_witness :
    ((some (sampleHandleData 0) : Option IOTHUB_CLIENT_LL_HANDLE_DATA) =
        none ∨
      (none : Option Nat) = none ∨
      ((some 4 : Option Nat) = none ∧ (some 5 : Option Nat) ≠ none)) ∧
    IoTHubClient_LL_SendEventAsync (some (sampleHandleData 0))
        none (some 4) (some 5) (some 17) true true =
      (IOTHUB_CLIENT_RESULT.INVALID_ARG, some (sampleHandleData 0)) :=
  ⟨by decide,
    claim_C6_send_invalid_arg (some (sampleHandleData 0))
      none (some 4) (some 5) (some 17) true true (by decide)⟩

/-- `void IoTHubClient_LL_DoWork(...)`: nothing on `NULL`; otherwise run
`DoTimeouts` over `waitingToSend` and then call the transport `_DoWork`,
which observes the queue as the scan left it (the transport holds a
reference to `waitingToSend`, recorded in the dispatch event). -/
def IoTHubClient_LL_DoWork
    (iotHubClientHandle : Option IOTHUB_CLIENT_LL_HANDLE_DATA)
    (nowTick : Option Nat) :
    Option IOTHUB_CLIENT_LL_HANDLE_DATA × List Event :=
  match iotHubClientHandle with
  | none => (none, [])
  | some handleData =>
    let r := DoTimeouts nowTick handleData.waitingToSend
    (some { handleData with waitingToSend := r.1 },
      r.2 ++ [Event.transportDoWork r.1])

theorem DoTimeouts_loop_no_dispatch (now : Nat)
    (q : List IOTHUB_MESSAGE_LIST) :
    ((DoTimeouts_loop now q).2).countP isTransportDoWorkEvent = 0 := by
  induction q with
  | nil => rfl
  | cons e rest ih =>
    by_cases h : timesOutBefore now e
    · cases hc : e.callback <;>
        simp [DoTimeouts_loop, h, invokeCallback, hc, List.countP_cons,
          isTransportDoWorkEvent, ih]
    · simp [DoTimeouts_loop, h, ih]

theorem DoTimeouts_no_dispatch (nowTick : Option Nat)
    (q : List IOTHUB_MESSAGE_LIST) :
    ((DoTimeouts nowTick q).2).countP isTransportDoWorkEvent = 0 := by
  cases nowTick with
  | none => rfl
  | some now => exact DoTimeouts_loop_no_dispatch now q

/-- Claim C5: `DoWork` on `NULL` performs neither the scan nor the
dispatch; on a live instance the transport dispatch event is the last
event of the cycle, is the only dispatch event (so the whole timeout
scan precedes it), and the queue it observes is the scan's output, which
under a successfully read timestamp contains no expired entry. -/
theorem claim_C5_scan_then_dispatch (d : IOTHUB_CLIENT_LL_HANDLE_DATA)
    (nowTick : Option Nat) (now : Nat) :
    IoTHubClient_LL_DoWork none nowTick = (none, []) ∧
    ((IoTHubClient_LL_DoWork (some d) nowTick).2).getLast? =
      some (Event.transportDoWork (DoTimeouts nowTick d.waitingToSend).1) ∧
    ((IoTHubClient_LL_DoWork (some d) nowTick).2).countP
        isTransportDoWorkEvent = 1 ∧
    (((IoTHubClient_LL_DoWork (some d) nowTick).2).dropLast).countP
        isTransportDoWorkEvent = 0 ∧
    ((DoTimeouts (some now) d.waitingToSend).1).countP
        (timesOutBefore now) = 0 := by
  refine ⟨rfl, ?_, ?_, ?_, ?_⟩
  · simp [IoTHubClient_LL_DoWork]
  · simp [IoTHubClient_LL_DoWork, List.countP_append, List.countP_cons,
      isTransportDoWorkEvent, DoTimeouts_no_dispatch]
  · simp [IoTHubClient_LL_DoWork, List.dropLast_concat,
      DoTimeouts_no_dispatch]
  · rw [show (DoTimeouts (some now) d.waitingToSend).1 =
        (DoTimeouts_loop now d.waitingToSend).1 from rfl,
      DoTimeouts_loop_fst, List.countP_eq_zero]
    intro a ha
    rw [List.mem_filter] at ha
    simpa using ha.2

/-- `IOTHUB_CLIENT_RESULT IoTHubClient_LL_SetOption(...)`: `INVALID_ARG`
when the handle, the option name or the value is `NULL`; the name
`"messageTimeout"` is handled locally by storing the pointed-to
`uint64_t` as the new default timeout; any other name is passed to the
transport `_SetOption`, whose status (`transportResult`) is returned
unchanged. -/
def IoTHubClient_LL_SetOption
    (iotHubClientHandle : Option IOTHUB_CLIENT_LL_HANDLE_DATA)
    (optionName : Option String) (value : Option Nat)
    (transportResult : IOTHUB_CLIENT_RESULT) :
    IOTHUB_CLIENT_RESULT × Option IOTHUB_CLIENT_LL_HANDLE_DATA :=
  match iotHubClientHandle, optionName, value with
  | some handleData, some name, some v =>
    if name = "messageTimeout" then
      (IOTHUB_CLIENT_RESULT.OK,
        some { handleData with currentMessageTimeout := v % 2 ^ 64 })
    else
      (transportResult, some handleData)
  | _, _, _ => (IOTHUB_CLIENT_RESULT.INVALID_ARG, iotHubClientHandle)

theorem SendEventAsync_success (d : IOTHUB_CLIENT_LL_HANDLE_DATA)
    (m cbv : Nat) (ctx : Option Nat) (now : Nat) :
    IoTHubClient_LL_SendEventAsync (some d) (some m) (some cbv) ctx
        (some now) true true =
      (IOTHUB_CLIENT_RESULT.OK,
        some { d with waitingToSend := d.waitingToSend ++
          [{ messageHandle := m, callback := some cbv, context := ctx,
             ms_timesOutAfter :=
               if d.currentMessageTimeout = 0 then 0
               else (now + d.currentMessageTimeout) % 2 ^ 64 }] }) := by
  by_cases h : d.currentMessageTimeout = 0 <;>
    simp [IoTHubClient_LL_SendEventAsync, attach_ms_timesOutAfter, h]

/-- Claim C7: no `SetOption` call ever touches the queue — every entry
keeps the expiry stamped at enqueue time — and after a
`"messageTimeout"` change a subsequent successful send appends an entry
whose expiry is computed from the new timeout, leaving all previously
queued entries (and their expiries) in place. -/
theorem claim_C7_expiry_fixed_at_enqueue
    (h : Option IOTHUB_CLIENT_LL_HANDLE_DATA) (name : Option String)
    (value : Option Nat) (tr : IOTHUB_CLIENT_RESULT)
    (d : IOTHUB_CLIENT_LL_HANDLE_DATA) (v m cbv : Nat) (ctx : Option Nat)
    (now : Nat) :
    ((IoTHubClient_LL_SetOption h name value tr).2).map
        (fun x => x.waitingToSend) =
      h.map (fun x => x.waitingToSend) ∧
    (IoTHubClient_LL_SendEventAsync
        ((IoTHubClient_LL_SetOption (some d) (some "messageTimeout")
          (some v) tr).2)
        (some m) (some cbv) ctx (some now) true true).2 =
      some { d with
        currentMessageTimeout := v % 2 ^ 64,
        waitingToSend := d.waitingToSend ++
          [{ messageHandle := m, callback := some cbv, context := ctx,
             ms_timesOutAfter :=
               if v % 2 ^ 64 = 0 then 0
               else (now + v % 2 ^ 64) % 2 ^ 64 }] } := by
  constructor
  · match h, name, value with
    | none, _, _ => rfl
    | some x, none, _ => rfl
    | some x, some n, none => rfl
    | some x, some n, some w =>
      by_cases hn : n = "messageTimeout" <;>
        simp [IoTHubClient_LL_SetOption, hn]
  · have hso : (IoTHubClient_LL_SetOption (some d) (some "messageTimeout")
        (some v) tr).2 =
        some { d with currentMessageTimeout := v % 2 ^ 64 } := by
      simp [IoTHubClient_LL_SetOption]
    rw [hso, SendEventAsync_success]

/-- `IoTHubClient_LL_Create`: the observable state of a successfully
created instance — empty queue, non-shared transport, no message
callback, `lastMessageReceiveTime = INDEFINITE_TIME`, default timeout
`0`; any failure along the acquisition chain (bad config, tickcounter,
transport `_Create`, transport `_Register`) yields `NULL`. -/
def IoTHubClient_LL_Create (configOK tickcounterOK transportCreateOK
    registerOK : Bool) : Option IOTHUB_CLIENT_LL_HANDLE_DATA :=
  if configOK && tickcounterOK && transportCreateOK && registerOK then
    some { waitingToSend := [], isSharedTransport := false,
           messageCallback := none, messageUserContextCallback := none,
           lastMessageReceiveTime := INDEFINITE_TIME,
           currentMessageTimeout := 0 }
  else
    none

/-- `IOTHUBMESSAGE_DISPOSITION_RESULT IoTHubClient_LL_MessageCallback(...)`:
`ABANDONED` on a `NULL` handle; otherwise the arrival time (`now`, the
`get_time(NULL)` reading) overwrites `lastMessageReceiveTime`
unconditionally, then the registered callback (if any) is invoked and
its verdict (`appDisposition`) returned, else `ABANDONED` with no
invocation. -/
def IoTHubClient_LL_MessageCallback
    (handle : Option IOTHUB_CLIENT_LL_HANDLE_DATA) (message : Nat)
    (now : Int) (appDisposition : IOTHUBMESSAGE_DISPOSITION_RESULT) :
    IOTHUBMESSAGE_DISPOSITION_RESULT ×
      Option IOTHUB_CLIENT_LL_HANDLE_DATA × List Event :=
  match handle with
  | none => (IOTHUBMESSAGE_DISPOSITION_RESULT.ABANDONED, none, [])
  | some handleData =>
    let updated := { handleData with lastMessageReceiveTime := now }
    match handleData.messageCallback with
    | some cb =>
      (appDisposition, some updated,
        [Event.appMessageCallback cb message
          handleData.messageUserContextCallback])
    | none =>
      (IOTHUBMESSAGE_DISPOSITION_RESULT.ABANDONED, some updated, [])

/-- `IOTHUB_CLIENT_RESULT IoTHubClient_LL_GetLastMessageReceiveTime(...)`:
`INVALID_ARG` when the handle or the out pointer is `NULL`;
`INDEFINITE_TIME` (out pointer untouched) when no inbound message has
ever arrived; otherwise `OK` with the stored timestamp written to the
out pointer.  `outPrev` is the value at the out pointer before the call;
the second component is the value there after it. -/
def IoTHubClient_LL_GetLastMessageReceiveTime
    (iotHubClientHandle : Option IOTHUB_CLIENT_LL_HANDLE_DATA)
    (outPtrIsNull : Bool) (outPrev : Int) : IOTHUB_CLIENT_RESULT × Int :=
  match iotHubClientHandle with
  | none => (IOTHUB_CLIENT_RESULT.INVALID_ARG, outPrev)
  | some handleData =>
    if outPtrIsNull then
      (IOTHUB_CLIENT_RESULT.INVALID_ARG, outPrev)
    else if handleData.lastMessageReceiveTime = INDEFINITE_TIME then
      (IOTHUB_CLIENT_RESULT.INDEFINITE_TIME, outPrev)
    else
      (IOTHUB_CLIENT_RESULT.OK, handleData.lastMessageReceiveTime)

/-- A sequence of inbound deliveries: each element is the delivered
message, its `get_time` reading, and the verdict the application
callback would return; the client state is threaded through
`IoTHubClient_LL_MessageCallback`. -/
def runDeliveries (d : IOTHUB_CLIENT_LL_HANDLE_DATA) :
    List (Nat × Int × IOTHUBMESSAGE_DISPOSITION_RESULT) →
      IOTHUB_CLIENT_LL_HANDLE_DATA
  | [] => d
  | (m, t, r) :: rest =>
    match (IoTHubClient_LL_MessageCallback (some d) m t r).2.1 with
    | some d2 => runDeliveries d2 rest
    | none => runDeliveries d rest

theorem MessageCallback_state (d : IOTHUB_CLIENT_LL_HANDLE_DATA)
    (m : Nat) (t : Int) (r : IOTHUBMESSAGE_DISPOSITION_RESULT) :
    (IoTHubClient_LL_MessageCallback (some d) m t r).2.1 =
      some { d with lastMessageReceiveTime := t } := by
  cases h : d.messageCallback <;>
    simp [IoTHubClient_LL_MessageCallback, h]

theorem runDeliveries_cons (d : IOTHUB_CLIENT_LL_HANDLE_DATA) (m : Nat)
    (t : Int) (r : IOTHUBMESSAGE_DISPOSITION_RESULT)
    (rest : List (Nat × Int × IOTHUBMESSAGE_DISPOSITION_RESULT)) :
    runDeliveries d ((m, t, r) :: rest) =
      runDeliveries { d with lastMessageReceiveTime := t } rest := by
  rw [runDeliveries, MessageCallback_state]

theorem runDeliveries_getLast (ds : List
      (Nat × Int × IOTHUBMESSAGE_DISPOSITION_RESULT))
    (d : IOTHUB_CLIENT_LL_HANDLE_DATA)
    (p : Nat × Int × IOTHUBMESSAGE_DISPOSITION_RESULT)
    (hp : ds.getLast? = some p) :
    (runDeliveries d ds).lastMessageReceiveTime = p.2.1 := by
  induction ds generalizing d with
  | nil => simp at hp
  | cons x rest ih =>
    obtain ⟨m, t, r⟩ := x
    rw [runDeliveries_cons]
    cases rest with
    | nil =>
      simp at hp
      subst hp
      rfl
    | cons y ys =>
      rw [List.getLast?_cons_cons] at hp
      exact ih _ hp

theorem runDeliveries_mono (ds : List
      (Nat × Int × IOTHUBMESSAGE_DISPOSITION_RESULT))
    (d : IOTHUB_CLIENT_LL_HANDLE_DATA)
    (hchain : List.Chain (fun a b => a ≤ b) d.lastMessageReceiveTime
      (ds.map (fun p => p.2.1))) :
    d.lastMessageReceiveTime ≤
      (runDeliveries d ds).lastMessageReceiveTime := by
  induction ds generalizing d with
  | nil => exact le_refl _
  | cons x rest ih =>
    obtain ⟨m, t, r⟩ := x
    rw [runDeliveries_cons]
    rw [List.map_cons, List.chain_cons] at hchain
    exact le_trans hchain.1 (ih { d with lastMessageReceiveTime := t }
      hchain.2)

theorem runDeliveries_no_sentinel (ds : List
      (Nat × Int × IOTHUBMESSAGE_DISPOSITION_RESULT))
    (d : IOTHUB_CLIENT_LL_HANDLE_DATA)
    (hd : d.lastMessageReceiveTime ≠ INDEFINITE_TIME)
    (hpos : ∀ p ∈ ds, (0 : Int) ≤ p.2.1) :
    (runDeliveries d ds).lastMessageReceiveTime ≠ INDEFINITE_TIME := by
  induction ds generalizing d with
  | nil => exact hd
  | cons x rest ih =>
    obtain ⟨m, t, r⟩ := x
    rw [runDeliveries_cons]
    have ht : (0 : Int) ≤ t := hpos (m, t, r) (List.mem_cons_self _ _)
    refine ih _ ?_ (fun p hp => hpos p (List.mem_cons_of_mem _ hp))
    show t ≠ INDEFINITE_TIME
    rw [INDEFINITE_TIME]
    omega

/-- Claim C8: a freshly created instance answers the receive-time query
with `INDEFINITE_TIME`; once a query has answered `OK` with value `v1`
and a further sequence of inbound deliveries arrives whose `get_time`
readings are non-negative and non-decreasing from `v1` on, the query
answers `OK` with the timestamp recorded at the most recent delivery,
and that answer never decreases below `v1`. -/
theorem claim_C8_last_receive_time (prev : Int)
    (d : IOTHUB_CLIENT_LL_HANDLE_DATA)
    (ds : List (Nat × Int × IOTHUBMESSAGE_DISPOSITION_RESULT)) (v1 : Int)
    (hq1 : IoTHubClient_LL_GetLastMessageReceiveTime (some d) false prev =
      (IOTHUB_CLIENT_RESULT.OK, v1))
    (hchain : List.Chain (fun a b => a ≤ b) v1 (ds.map (fun p => p.2.1)))
    (hpos : ∀ p ∈ ds, (0 : Int) ≤ p.2.1) :
    IoTHubClient_LL_GetLastMessageReceiveTime
        (IoTHubClient_LL_Create true true true true) false prev =
      (IOTHUB_CLIENT_RESULT.INDEFINITE_TIME, prev) ∧
    IoTHubClient_LL_GetLastMessageReceiveTime
        (some (runDeliveries d ds)) false prev =
      (IOTHUB_CLIENT_RESULT.OK,
        (runDeliveries d ds).lastMessageReceiveTime) ∧
    v1 ≤ (runDeliveries d ds).lastMessageReceiveTime ∧
    ∀ p, ds.getLast? = some p →
      (runDeliveries d ds).lastMessageReceiveTime = p.2.1 := by
  have hne : d.lastMessageReceiveTime ≠ INDEFINITE_TIME := by
    intro he
    simp [IoTHubClient_LL_GetLastMessageReceiveTime, he] at hq1
  have hv1 : d.lastMessageReceiveTime = v1 := by
    simp [IoTHubClient_LL_GetLastMessageReceiveTime, hne] at hq1
    exact hq1
  refine ⟨rfl, ?_, ?_, ?_⟩
  · have := runDeliveries_no_sentinel ds d hne hpos
    simp [IoTHubClient_LL_GetLastMessageReceiveTime, this]
  · have := runDeliveries_mono ds d (by rw [hv1]; exact hchain)
    rw [hv1] at this
    exact this
  · intro p hp
    exact runDeliveries_getLast ds d p hp

theorem claim_C8_last_receive_time_witness :
    (IoTHubClient_LL_GetLastMessageReceiveTime
        (some { sampleHandleData 0 with lastMessageReceiveTime := 5 })
        false 99 =
      (IOTHUB_CLIENT_RESULT.OK, 5)) ∧
    IoTHubClient_LL_GetLastMessageReceiveTime
        (some (runDeliveries
          { sampleHandleData 0 with lastMessageReceiveTime := 5 }
          [((1 : Nat), (10 : Int), IOTHUBMESSAGE_DISPOSITION_RESULT.ACCEPTED),
            ((2 : Nat), (20 : Int),
              IOTHUBMESSAGE_DISPOSITION_RESULT.REJECTED)])) false 99 =
      (IOTHUB_CLIENT_RESULT.OK, 20) :=
  ⟨by decide,
    (claim_C8_last_receive_time 99
      { sampleHandleData 0 with lastMessageReceiveTime := 5 }
      [((1 : Nat), (10 : Int), IOTHUBMESSAGE_DISPOSITION_RESULT.ACCEPTED),
        ((2 : Nat), (20 : Int), IOTHUBMESSAGE_DISPOSITION_RESULT.REJECTED)]
      5 (by decide) (by simp [List.chain_cons]) (by decide)).2.1⟩

/-- Claim C9: an inbound delivery on a live instance with no registered
receive callback returns `ABANDONED`, invokes nothing (empty trace), and
still overwrites `lastMessageReceiveTime` with the arrival time. -/
theorem claim_C9_inbound_no_callback (d : IOTHUB_CLIENT_LL_HANDLE_DATA)
    (m : Nat) (now : Int) (appRes : IOTHUBMESSAGE_DISPOSITION_RESULT)
    (hcb : d.messageCallback = none) :
    IoTHubClient_LL_MessageCallback (some d) m now appRes =
      (IOTHUBMESSAGE_DISPOSITION_RESULT.ABANDONED,
        some { d with lastMessageReceiveTime := now }, []) := by
  simp [IoTHubClient_LL_MessageCallback, hcb]

theorem claim_C9_inbound_no_callback_witness :
    (sampleHandleData 0).messageCallback = none ∧
    IoTHubClient_LL_MessageCallback (some (sampleHandleData 0)) 8 42
        IOTHUBMESSAGE_DISPOSITION_RESULT.ACCEPTED =
      (IOTHUBMESSAGE_DISPOSITION_RESULT.ABANDONED,
        some { sampleHandleData 0 with lastMessageReceiveTime := 42 },
        []) :=
  ⟨rfl, claim_C9_inbound_no_callback (sampleHandleData 0) 8 42
    IOTHUBMESSAGE_DISPOSITION_RESULT.ACCEPTED rfl⟩

/-- Claim C10: the receive-time query returns `INVALID_ARG` on a null
handle or a null out pointer, and the out pointer keeps its previous
contents whenever the query does not return `OK` (both the
`INVALID_ARG` and the `INDEFINITE_TIME` outcomes). -/
theorem claim_C10_get_time_guards
    (h : Option IOTHUB_CLIENT_LL_HANDLE_DATA) (outPtrIsNull : Bool)
    (prev : Int) :
    ((h = none ∨ outPtrIsNull = true) →
      IoTHubClient_LL_GetLastMessageReceiveTime h outPtrIsNull prev =
        (IOTHUB_CLIENT_RESULT.INVALID_ARG, prev)) ∧
    ((IoTHubClient_LL_GetLastMessageReceiveTime h outPtrIsNull prev).1 ≠
        IOTHUB_CLIENT_RESULT.OK →
      (IoTHubClient_LL_GetLastMessageReceiveTime h outPtrIsNull prev).2 =
        prev) := by
  constructor
  · rintro (hn | ho)
    · subst hn
      rfl
    · cases h with
      | none => rfl
      | some x => simp [IoTHubClient_LL_GetLastMessageReceiveTime, ho]
  · intro hne
    cases h with
    | none => rfl
    | some x =>
      cases ho : outPtrIsNull with
      | true => simp [IoTHubClient_LL_GetLastMessageReceiveTime, ho]
      | false =>
        by_cases hs : x.lastMessageReceiveTime = INDEFINITE_TIME
        · simp [IoTHubClient_LL_GetLastMessageReceiveTime, ho, hs]
        · exact absurd (by
            simp [IoTHubClient_LL_GetLastMessageReceiveTime, ho, hs]) hne

theorem claim_C10_get_time_guards_witness :
    ((none : Option IOTHUB_CLIENT_LL_HANDLE_DATA) = none ∨ false = true) ∧
    IoTHubClient_LL_GetLastMessageReceiveTime none false 7 =
      (IOTHUB_CLIENT_RESULT.INVALID_ARG, 7) ∧
    (IoTHubClient_LL_GetLastMessageReceiveTime
        (some (sampleHandleData 0)) false 7).1 ≠ IOTHUB_CLIENT_RESULT.OK ∧
    (IoTHubClient_LL_GetLastMessageReceiveTime
        (some (sampleHandleData 0)) false 7).2 = 7 :=
  ⟨Or.inl rfl,
    (claim_C10_get_time_guards none false 7).1 (Or.inl rfl),
    by decide,
    (claim_C10_get_time_guards (some (sampleHandleData 0)) false 7).2
      (by decide)⟩
